import Mathlib

/-!
# Verification of the realtime presence and messaging core

Shallow embedding of the socket-handler core of the repository (the
handlers registered in the server entry file), together with the
Mongoose Friendship / Message model statics and the friendship HTTP
routes, and proofs of the specification claims about them.

Conventions of the embedding:
* Mongo ObjectIds and usernames are strings; timestamps (each call of
  new Date()) are Nat instants supplied explicitly to each handler.
* A Mongo collection is a list of records; updateMany is a map guarded
  by the filter, findOne is List.find?, deletion is a filter.
* JavaScript truthiness of a string field (the check !senderId) is the
  test against the empty string.
* Every awaited database call is a potential failure (promise
  rejection) point; a FailOracle record says which of them reject
  during one handler run.  Synchronous emit calls never fail.
* Each handler body is wrapped in try/catch in the source, so a handler
  is a total function from its inputs to (new store, emissions).
-/

namespace Domz

/-- Lexicographic strict comparison of character lists, the order the
JavaScript default sort comparator applies to strings (code-unit by
code-unit, a strict prefix sorting first). -/
def charListLt : List Char → List Char → Bool
  | [], [] => false
  | [], _ :: _ => true
  | _ :: _, [] => false
  | a :: as, b :: bs => if a < b then true else if b < a then false else charListLt as bs

/-- The chat-room identifier used by the join-chat, send-message and
typing handlers: the two id strings sorted ascending and joined with a
dash (the JavaScript two-element sort-and-join idiom; the sort swaps
the pair exactly when the second id orders strictly below the first). -/
def pairChannel (a b : String) : String :=
  if charListLt b.data a.data then b ++ "-" ++ a else a ++ "-" ++ b

/-- Where a server-side emit is addressed, mirroring socket.io:
`Target.self` is an emit on the originating socket only;
`Target.room c` is an emit through the io object to every member of
room `c`; `Target.roomOthers c` is an emit through the originating
socket to members of room `c` except that socket;
`Target.broadcastOthers` is a broadcast to every connection except the
originating one. -/
inductive Target where
  | self : Target
  | room (channel : String) : Target
  | roomOthers (channel : String) : Target
  | broadcastOthers : Target
deriving DecidableEq, Repr

/-- A Message document (the message model file). -/
structure Message where
  mid : Nat
  sender : String
  recipient : String
  content : String
  messageType : String
  isRead : Bool
  readAt : Option Nat
  createdAt : Nat
deriving DecidableEq, Repr

/-- Friendship status enum of the friendship model. -/
inductive FStatus where
  | pending : FStatus
  | accepted : FStatus
  | declined : FStatus
  | blocked : FStatus
deriving DecidableEq, Repr

/-- A Friendship document (the friendship model file). -/
structure Friendship where
  fid : Nat
  requester : String
  recipient : String
  status : FStatus
deriving DecidableEq, Repr

/-- A User document, restricted to the presence fields the handlers
touch. -/
structure UserRec where
  uid : String
  username : String
  isOnline : Bool
  lastSeen : Option Nat
  socketId : Option String
deriving DecidableEq, Repr

/-- Server-to-client events emitted by the modelled handlers. -/
inductive SEvent where
  | newMessage (m : Message) : SEvent
  | messageDelivered (messageId : Nat) (timestamp : Nat) : SEvent
  | messageError (error : String) : SEvent
  | userStatusUpdate (userId : String) (isOnline : Bool) (lastSeen : Nat) : SEvent
  | userTyping (userId : String) (isTyping : Bool) : SEvent
  | messagesRead (recipientId : String) (readAt : Nat) : SEvent
deriving DecidableEq, Repr

/-- One addressed emission. -/
structure Emission where
  target : Target
  event : SEvent
deriving DecidableEq, Repr

/-- Which awaited calls of one send-message run reject.  The four
await points of the handler are the friendship lookup, the save, and
the two populate calls. -/
structure FailOracle where
  areFriendsFails : Bool
  saveFails : Bool
  populateSenderFails : Bool
  populateRecipientFails : Bool
deriving DecidableEq, Repr

/-- The run in which every awaited call resolves. -/
def FailOracle.noFail : FailOracle :=
  { areFriendsFails := false, saveFails := false,
    populateSenderFails := false, populateRecipientFails := false }

/-- The areFriends static of the friendship model: some edge joins the
two users in either orientation with accepted status. -/
def areFriends (edges : List Friendship) (userId1 userId2 : String) : Bool :=
  edges.any fun f =>
    (f.requester == userId1 && f.recipient == userId2 && f.status == FStatus.accepted) ||
    (f.requester == userId2 && f.recipient == userId1 && f.status == FStatus.accepted)

/-- The character set the JavaScript trim method strips: the
ECMAScript WhiteSpace set (TAB, VT, FF, SP, NBSP, ZWNBSP and the
Unicode space separators U+1680, U+2000..U+200A, U+202F, U+205F,
U+3000) together with the LineTerminator set (LF, CR, LS U+2028,
PS U+2029). -/
def jsWhitespace (c : Char) : Bool :=
  let n := c.toNat
  decide (n = 0x0009) || decide (n = 0x000A) || decide (n = 0x000B) ||
  decide (n = 0x000C) || decide (n = 0x000D) || decide (n = 0x0020) ||
  decide (n = 0x00A0) || decide (n = 0xFEFF) || decide (n = 0x1680) ||
  (decide (0x2000 ≤ n) && decide (n ≤ 0x200A)) ||
  decide (n = 0x2028) || decide (n = 0x2029) || decide (n = 0x202F) ||
  decide (n = 0x205F) || decide (n = 0x3000)

/-- JavaScript-trimmable whitespace stripped from both ends of a
character list. -/
def trimChars (l : List Char) : List Char :=
  ((l.dropWhile jsWhitespace).reverse.dropWhile jsWhitespace).reverse

/-- The JavaScript trim method on strings: the ECMAScript whitespace
and line-terminator characters stripped from both ends. -/
def jsTrim (s : String) : String :=
  ⟨trimChars s.data⟩

/-- The Message document built by the send-message handler: the given
content with messageType text, the unread defaults, and the creation
instant; `mid` is the id Mongo assigns at insert. -/
def mkMessage (mid : Nat) (senderId recipientId content : String) (now : Nat) : Message :=
  { mid := mid, sender := senderId, recipient := recipientId,
    content := content, messageType := "text",
    isRead := false, readAt := none, createdAt := now }

/-- The send-message handler.  Validation of the three fields, the
friendship gate, the save (which also rejects when the trimmed content
is empty, because the schema marks content as required), the two
populate calls, then the fan-out to the pair room, the recipient
mailbox room and the delivery confirmation to the sender.  Every throw
is caught and reported to the originating socket as a message-error. -/
def sendMessage (oracle : FailOracle) (friendships : List Friendship)
    (messages : List Message) (nextId now : Nat)
    (senderId recipientId content : String) : List Message × List Emission :=
  if senderId = "" ∨ recipientId = "" ∨ content = "" then
    (messages, [⟨Target.self, SEvent.messageError "Missing required fields"⟩])
  else if oracle.areFriendsFails then
    (messages, [⟨Target.self, SEvent.messageError "Failed to send message"⟩])
  else if areFriends friendships senderId recipientId = false then
    (messages, [⟨Target.self, SEvent.messageError "You can only message friends"⟩])
  else if oracle.saveFails ∨ jsTrim content = "" then
    (messages, [⟨Target.self, SEvent.messageError "Failed to send message"⟩])
  else
    let message := mkMessage nextId senderId recipientId (jsTrim content) now
    let saved := messages ++ [message]
    if oracle.populateSenderFails ∨ oracle.populateRecipientFails then
      (saved, [⟨Target.self, SEvent.messageError "Failed to send message"⟩])
    else
      (saved,
        [⟨Target.room (pairChannel senderId recipientId), SEvent.newMessage message⟩,
         ⟨Target.roomOthers recipientId, SEvent.newMessage message⟩,
         ⟨Target.self, SEvent.messageDelivered message.mid message.createdAt⟩])

/-- An emission is a terminal outcome of a send-message attempt for
the originating connection: a delivery confirmation or a message-error
addressed to that socket alone. -/
def isTerminal (e : Emission) : Bool :=
  e.target == Target.self &&
    (match e.event with
     | SEvent.messageDelivered _ _ => true
     | SEvent.messageError _ => true
     | _ => false)

/-- The updateMany of the mark-messages-read handler: every record
matching the filter (sender, recipient, unread) gets the read flag and
the read instant; nothing else changes. -/
def markMessagesRead (messages : List Message) (senderId recipientId : String)
    (now : Nat) : List Message :=
  messages.map fun m =>
    if m.sender = senderId ∧ m.recipient = recipientId ∧ m.isRead = false then
      { m with isRead := true, readAt := some now }
    else m

/-- The user-inactive handler: findByIdAndUpdate with only a lastSeen
payload, then a broadcast that reports the user offline. -/
def userInactive (users : List UserRec) (now : Nat) (userId : String) :
    List UserRec × List Emission :=
  (users.map fun u => if u.uid = userId then { u with lastSeen := some now } else u,
   [⟨Target.broadcastOthers, SEvent.userStatusUpdate userId false now⟩])

/-- The explicit user-disconnected handler.  The closure has the
per-connection `currentUser` binding in scope but never consults it:
the guard is the truthiness of the event argument alone.  When the
guard passes, the named user is marked offline (offline flag, lastSeen
stamp, socket handle cleared) and a status update is broadcast. -/
def userDisconnected (currentUser : Option (String × String)) (users : List UserRec)
    (now : Nat) (userId : String) : List UserRec × List Emission :=
  if userId ≠ "" then
    (users.map fun u =>
       if u.uid = userId then
         { u with isOnline := false, lastSeen := some now, socketId := none }
       else u,
     [⟨Target.broadcastOthers, SEvent.userStatusUpdate userId false now⟩])
  else (users, [])

/-- The implicit transport disconnect handler.  The guard is the
truthiness of the per-connection `currentUser` binding and of its
userId field; when it passes, the bound user is marked offline with
the same payload as the explicit path and the same broadcast is sent. -/
def onDisconnect (currentUser : Option (String × String)) (users : List UserRec)
    (now : Nat) : List UserRec × List Emission :=
  match currentUser with
  | some (userId, _) =>
    if userId ≠ "" then
      (users.map fun u =>
         if u.uid = userId then
           { u with isOnline := false, lastSeen := some now, socketId := none }
         else u,
       [⟨Target.broadcastOthers, SEvent.userStatusUpdate userId false now⟩])
    else (users, [])
  | none => (users, [])

/-- State of the friendship subsystem: registered user ids, the edge
collection, and the next id Mongo will assign. -/
structure FriendState where
  users : List String
  edges : List Friendship
  nextId : Nat
deriving DecidableEq, Repr

/-- The existence findOne of the request route: any edge joining the
two users, in either orientation, whatever its status. -/
def findExistingFriendship (edges : List Friendship) (requesterId recipientId : String) :
    Option Friendship :=
  edges.find? fun f =>
    (f.requester == requesterId && f.recipient == recipientId) ||
    (f.requester == recipientId && f.recipient == requesterId)

/-- The save of a freshly built pending Friendship document, including
the unique compound index on the ordered (requester, recipient) pair:
a duplicate in that same orientation makes the save reject, and the
route reports a server error with no insert. -/
def saveNewFriendship (s : FriendState) (requesterId recipientId : String) : FriendState :=
  if s.edges.any (fun f => f.requester == requesterId && f.recipient == recipientId) then s
  else
    { s with edges := s.edges ++ [⟨s.nextId, requesterId, recipientId, FStatus.pending⟩],
             nextId := s.nextId + 1 }

/-- The friend-request route: reject a missing recipient, a request to
oneself, an unknown recipient, and an existing edge in accepted or
pending state; any other existing status falls through to the insert,
exactly as the route only returns early on those two statuses. -/
def sendFriendRequest (s : FriendState) (requesterId recipientId : String) : FriendState :=
  if recipientId = "" then s
  else if requesterId = recipientId then s
  else if s.users.contains recipientId = false then s
  else
    match findExistingFriendship s.edges requesterId recipientId with
    | some f =>
      if f.status = FStatus.accepted ∨ f.status = FStatus.pending then s
      else saveNewFriendship s requesterId recipientId
    | none => saveNewFriendship s requesterId recipientId

/-- The accept route: findOne by id, recipient and pending status, then
save that document with accepted status. -/
def acceptFriendRequest (s : FriendState) (friendshipId : Nat) (currentUserId : String) :
    FriendState :=
  match s.edges.find? (fun f => f.fid == friendshipId && f.recipient == currentUserId
      && f.status == FStatus.pending) with
  | none => s
  | some _ =>
    { s with edges := s.edges.map fun f =>
        if f.fid = friendshipId ∧ f.recipient = currentUserId ∧ f.status = FStatus.pending
        then { f with status := FStatus.accepted } else f }

/-- The decline route: findOne by id, recipient and pending status,
then findByIdAndDelete. -/
def declineFriendRequest (s : FriendState) (friendshipId : Nat) (currentUserId : String) :
    FriendState :=
  match s.edges.find? (fun f => f.fid == friendshipId && f.recipient == currentUserId
      && f.status == FStatus.pending) with
  | none => s
  | some _ => { s with edges := s.edges.filter fun f => f.fid ≠ friendshipId }

/-- The remove route: findOne an accepted edge in either orientation,
then delete it by id. -/
def removeFriend (s : FriendState) (friendId currentUserId : String) : FriendState :=
  if friendId = "" then s
  else
    match s.edges.find? (fun f =>
        (f.requester == currentUserId && f.recipient == friendId
          && f.status == FStatus.accepted) ||
        (f.requester == friendId && f.recipient == currentUserId
          && f.status == FStatus.accepted)) with
    | none => s
    | some f => { s with edges := s.edges.filter fun g => g.fid ≠ f.fid }

/-- States of the friendship store reachable from an empty edge
collection through the four routes. -/
inductive Reachable : FriendState → Prop where
  | init (users : List String) : Reachable ⟨users, [], 0⟩
  | send {s : FriendState} (requesterId recipientId : String) :
      Reachable s → Reachable (sendFriendRequest s requesterId recipientId)
  | accept {s : FriendState} (friendshipId : Nat) (currentUserId : String) :
      Reachable s → Reachable (acceptFriendRequest s friendshipId currentUserId)
  | decline {s : FriendState} (friendshipId : Nat) (currentUserId : String) :
      Reachable s → Reachable (declineFriendRequest s friendshipId currentUserId)
  | remove {s : FriendState} (friendId currentUserId : String) :
      Reachable s → Reachable (removeFriend s friendId currentUserId)

/-- Two edges join the same unordered pair of users. -/
def samePair (f g : Friendship) : Prop :=
  (f.requester = g.requester ∧ f.recipient = g.recipient) ∨
  (f.requester = g.recipient ∧ f.recipient = g.requester)

instance (f g : Friendship) : Decidable (samePair f g) := by
  unfold samePair
  infer_instance

/-- The edge-collection invariant: every stored edge is pending or
accepted, and no two stored edges join the same unordered pair. -/
def GoodEdges (edges : List Friendship) : Prop :=
  (∀ f ∈ edges, f.status = FStatus.pending ∨ f.status = FStatus.accepted) ∧
  edges.Pairwise fun f g => ¬ samePair f g

end Domz

namespace Domz

theorem charListLt_antisymm : ∀ l m : List Char,
    charListLt l m = false → charListLt m l = false → l = m := by
  intro l
  induction l with
  | nil =>
    intro m h1 _
    cases m with
    | nil => rfl
    | cons b bs => simp [charListLt] at h1
  | cons a as ih =>
    intro m h1 h2
    cases m with
    | nil => simp [charListLt] at h2
    | cons b bs =>
      simp only [charListLt] at h1 h2
      by_cases hab : a < b
      · simp [hab] at h1
      · by_cases hba : b < a
        · simp [hba] at h2
        · have hEq : a = b := le_antisymm (not_lt.mp hba) (not_lt.mp hab)
          simp only [hab, hba, if_false, reduceIte] at h1 h2
          rw [hEq, ih bs (by simpa [hEq] using h1) (by simpa [hEq] using h2)]

theorem charListLt_asymm : ∀ l m : List Char,
    charListLt l m = true → charListLt m l = false := by
  intro l
  induction l with
  | nil =>
    intro m _
    cases m with
    | nil => rfl
    | cons b bs => simp [charListLt]
  | cons a as ih =>
    intro m h
    cases m with
    | nil => simp [charListLt] at h
    | cons b bs =>
      simp only [charListLt] at h ⊢
      by_cases hab : a < b
      · simp [hab, asymm hab]
      · by_cases hba : b < a
        · simp [hab, hba] at h
        · simp only [hab, hba, if_false, reduceIte] at h ⊢
          exact ih bs h

theorem pairChannel_comm (a b : String) : pairChannel a b = pairChannel b a := by
  unfold pairChannel
  cases hba : charListLt b.data a.data with
  | true =>
    rw [charListLt_asymm b.data a.data hba]
    simp
  | false =>
    cases hab : charListLt a.data b.data with
    | true => simp
    | false =>
      have : a = b := String.ext (charListLt_antisymm a.data b.data hab hba)
      rw [this]

/-- Splitting a character list at a separator that occurs in neither
left part is unambiguous. -/
theorem sep_split (sep : Char) :
    ∀ (l1 : List Char) (l2 : List Char) (m1 : List Char) (m2 : List Char),
      sep ∉ l1 → sep ∉ m1 →
      l1 ++ sep :: l2 = m1 ++ sep :: m2 → l1 = m1 ∧ l2 = m2 := by
  intro l1
  induction l1 with
  | nil =>
    intro l2 m1 m2 _ hm1 h
    cases m1 with
    | nil => simpa using h
    | cons c m1 =>
      simp only [List.nil_append, List.cons_append, List.cons.injEq] at h
      exact absurd (h.1 ▸ List.mem_cons_self c m1) hm1
  | cons c l1 ih =>
    intro l2 m1 m2 hl1 hm1 h
    cases m1 with
    | nil =>
      simp only [List.cons_append, List.nil_append, List.cons.injEq] at h
      exact absurd (h.1.symm ▸ List.mem_cons_self c l1) hl1
    | cons d m1 =>
      simp only [List.cons_append, List.cons.injEq] at h
      have hrest := ih l2 m1 m2 (fun hx => hl1 (List.mem_cons_of_mem c hx))
        (fun hx => hm1 (List.mem_cons_of_mem d hx)) h.2
      exact ⟨by simp [h.1, hrest.1], hrest.2⟩

theorem dash_join_inj (x y u v : String)
    (hx : ('-' : Char) ∉ x.data) (hu : ('-' : Char) ∉ u.data)
    (h : x ++ "-" ++ y = u ++ "-" ++ v) : x = u ∧ y = v := by
  have hdata : x.data ++ '-' :: y.data = u.data ++ '-' :: v.data := by
    have := congrArg String.data h
    simpa [String.data_append] using this
  have hsplit := sep_split '-' x.data y.data u.data v.data hx hu hdata
  exact ⟨String.ext hsplit.1, String.ext hsplit.2⟩

/-- C1: a send-message event with all three fields present whose sender
and recipient have no accepted friendship edge (self-messaging
included) makes the handler emit the authorization error to the
originating connection only, and the message collection is unchanged. -/
theorem claim_C1 (oracle : FailOracle) (friendships : List Friendship)
    (messages : List Message) (nextId now : Nat) (senderId recipientId content : String)
    (hs : senderId ≠ "") (hr : recipientId ≠ "") (hc : content ≠ "")
    (hlive : oracle.areFriendsFails = false)
    (hnf : areFriends friendships senderId recipientId = false) :
    sendMessage oracle friendships messages nextId now senderId recipientId content =
      (messages, [⟨Target.self, SEvent.messageError "You can only message friends"⟩]) := by
  unfold sendMessage
  simp [hs, hr, hc, hlive, hnf]

/-- Witness for C1: a sender messaging themself while holding an
accepted edge with somebody else still gets the authorization error
and no record is stored. -/
theorem claim_C1_witness :
    ("u1" : String) ≠ "" ∧ ("hello" : String) ≠ "" ∧
    FailOracle.noFail.areFriendsFails = false ∧
    areFriends [⟨0, "u1", "u2", FStatus.accepted⟩] "u1" "u1" = false ∧
    sendMessage FailOracle.noFail [⟨0, "u1", "u2", FStatus.accepted⟩] [] 0 0 "u1" "u1" "hello" =
      ([], [⟨Target.self, SEvent.messageError "You can only message friends"⟩]) :=
  ⟨by decide, by decide, by decide, by decide,
   claim_C1 FailOracle.noFail [⟨0, "u1", "u2", FStatus.accepted⟩] [] 0 0 "u1" "u1" "hello"
     (by decide) (by decide) (by decide) (by decide) (by decide)⟩

/-- Counterexample to C2 as stated: between accepted friends, with all
three fields non-empty, the blank content consisting of one space
passes the handler validation but the save rejects it (content is a
required schema field and trims to the empty string), so no record is
persisted, nothing is published, and the sender gets an error rather
than a delivery confirmation. -/
theorem claim_C2_counterexample :
    areFriends [⟨0, "u1", "u2", FStatus.accepted⟩] "u1" "u2" = true ∧
    ("u1" : String) ≠ "" ∧ ("u2" : String) ≠ "" ∧ (" " : String) ≠ "" ∧
    sendMessage FailOracle.noFail [⟨0, "u1", "u2", FStatus.accepted⟩] [] 0 0 "u1" "u2" " " =
      ([], [⟨Target.self, SEvent.messageError "Failed to send message"⟩]) := by
  decide

/-- C2 amended: for content that is non-empty after trimming (and
non-empty sender and recipient ids) between accepted friends, with
every awaited call resolving, the handler appends exactly one Message
record with the trimmed content and text type, then publishes it once
to the pair channel and once to the recipient mailbox, then emits
exactly one delivery confirmation to the sender alone carrying the new
id and the creation instant — in this order. -/
theorem claim_C2_amended (friendships : List Friendship) (messages : List Message)
    (nextId now : Nat) (senderId recipientId content : String)
    (hs : senderId ≠ "") (hr : recipientId ≠ "")
    (hc : jsTrim content ≠ "")
    (hf : areFriends friendships senderId recipientId = true) :
    sendMessage FailOracle.noFail friendships messages nextId now senderId recipientId content =
      (messages ++ [mkMessage nextId senderId recipientId (jsTrim content) now],
       [⟨Target.room (pairChannel senderId recipientId),
           SEvent.newMessage (mkMessage nextId senderId recipientId (jsTrim content) now)⟩,
        ⟨Target.roomOthers recipientId,
           SEvent.newMessage (mkMessage nextId senderId recipientId (jsTrim content) now)⟩,
        ⟨Target.self, SEvent.messageDelivered nextId now⟩]) := by
  have hcne : content ≠ "" := by
    intro hemp
    apply hc
    rw [hemp]
    rfl
  unfold sendMessage
  simp [hs, hr, hcne, hf, hc, FailOracle.noFail, mkMessage]

/-- Witness for C2 amended: a concrete successful run. -/
theorem claim_C2_witness :
    ("u1" : String) ≠ "" ∧ ("u2" : String) ≠ "" ∧ jsTrim " hi " ≠ "" ∧
    areFriends [⟨0, "u1", "u2", FStatus.accepted⟩] "u1" "u2" = true ∧
    sendMessage FailOracle.noFail [⟨0, "u1", "u2", FStatus.accepted⟩] [] 7 3 "u1" "u2" " hi " =
      ([mkMessage 7 "u1" "u2" (jsTrim " hi ") 3],
       [⟨Target.room (pairChannel "u1" "u2"),
           SEvent.newMessage (mkMessage 7 "u1" "u2" (jsTrim " hi ") 3)⟩,
        ⟨Target.roomOthers "u2", SEvent.newMessage (mkMessage 7 "u1" "u2" (jsTrim " hi ") 3)⟩,
        ⟨Target.self, SEvent.messageDelivered 7 3⟩]) :=
  ⟨by decide, by decide, by decide, by decide,
   claim_C2_amended [⟨0, "u1", "u2", FStatus.accepted⟩] [] 7 3 "u1" "u2" " hi "
     (by decide) (by decide) (by decide) (by decide)⟩

/-- C3: the read-update touches exactly the records matching
(sender, recipient, unread) at the instant it executes — those get the
read flag and the read instant, every other record (already read, or
the opposite direction) is returned unchanged, the collection keeps
its length, and a message created afterwards sits unread behind the
updated records. -/
theorem claim_C3 (messages : List Message) (senderId recipientId : String)
    (now i j : Nat) (laterContent : String) (laterTime : Nat) :
    (markMessagesRead messages senderId recipientId now).length = messages.length ∧
    (markMessagesRead messages senderId recipientId now)[i]? =
      (messages[i]?).map (fun m =>
        if m.sender = senderId ∧ m.recipient = recipientId ∧ m.isRead = false
        then { m with isRead := true, readAt := some now } else m) ∧
    (markMessagesRead messages senderId recipientId now ++
        [mkMessage j senderId recipientId laterContent laterTime])[messages.length]? =
      some (mkMessage j senderId recipientId laterContent laterTime) ∧
    (mkMessage j senderId recipientId laterContent laterTime).isRead = false := by
  refine ⟨by simp [markMessagesRead], ?_, ?_, rfl⟩
  · simp [markMessagesRead]
  · have hlen : (markMessagesRead messages senderId recipientId now).length =
        messages.length := by simp [markMessagesRead]
    rw [List.getElem?_append_right (by rw [hlen]), hlen]
    simp

/-- C4: every send-message attempt produces exactly one terminal
outcome addressed to the originating connection — one delivery
confirmation or one message-error — whatever the field contents, the
friendship state, and whichever awaited calls reject; the handler is a
total function, so no path crashes the connection or drops silently. -/
theorem claim_C4 (oracle : FailOracle) (friendships : List Friendship)
    (messages : List Message) (nextId now : Nat) (senderId recipientId content : String) :
    ((sendMessage oracle friendships messages nextId now senderId recipientId
        content).2.filter isTerminal).length = 1 := by
  unfold sendMessage
  repeat' split
  all_goals simp [isTerminal]

/-- Counterexample to C5 as stated: over arbitrary string ids the
sort-and-join construction is not collision-free — with a shared first
id, two distinct second ids can produce the same channel identifier,
because the dash separator can occur inside an id. -/
theorem claim_C5_counterexample :
    pairChannel "-x-" "-x" = pairChannel "-x-" "x-" ∧ ("-x" : String) ≠ "x-" := by
  decide

/-- C5 amended: on ids that do not contain the separator character
(Mongo ObjectIds are dash-free hex strings), the channel identifier
determines the unordered pair of ids, so distinct pairs get distinct
channels. -/
theorem claim_C5_amended (a b c d : String)
    (ha : ('-' : Char) ∉ a.data) (hb : ('-' : Char) ∉ b.data)
    (hc : ('-' : Char) ∉ c.data) (hd : ('-' : Char) ∉ d.data)
    (h : pairChannel a b = pairChannel c d) :
    (a = c ∧ b = d) ∨ (a = d ∧ b = c) := by
  unfold pairChannel at h
  cases hba : charListLt b.data a.data with
  | true =>
    rw [hba] at h
    simp only [if_true, reduceIte] at h
    cases hdc : charListLt d.data c.data with
    | true =>
      rw [hdc] at h
      simp only [if_true, reduceIte] at h
      have := dash_join_inj b a d c hb hd h
      exact Or.inl ⟨this.2, this.1⟩
    | false =>
      rw [hdc] at h
      simp only [Bool.false_eq_true, if_false, reduceIte] at h
      have := dash_join_inj b a c d hb hc h
      exact Or.inr ⟨this.2, this.1⟩
  | false =>
    rw [hba] at h
    simp only [Bool.false_eq_true, if_false, reduceIte] at h
    cases hdc : charListLt d.data c.data with
    | true =>
      rw [hdc] at h
      simp only [if_true, reduceIte] at h
      have := dash_join_inj a b d c ha hd h
      exact Or.inr ⟨this.1, this.2⟩
    | false =>
      rw [hdc] at h
      simp only [Bool.false_eq_true, if_false, reduceIte] at h
      exact Or.inl (dash_join_inj a b c d ha hc h)

/-- Witness for C5 amended: two dash-free ids given in the two orders
produce the same channel, and the conclusion identifies the pairs. -/
theorem claim_C5_witness :
    (('-' : Char) ∉ ("ab" : String).data) ∧ (('-' : Char) ∉ ("cd" : String).data) ∧
    pairChannel "ab" "cd" = pairChannel "cd" "ab" ∧
    ((("ab" : String) = "cd" ∧ ("cd" : String) = "ab") ∨
      (("ab" : String) = "ab" ∧ ("cd" : String) = "cd")) :=
  ⟨by decide, by decide, pairChannel_comm "ab" "cd",
   claim_C5_amended "ab" "cd" "cd" "ab" (by decide) (by decide) (by decide) (by decide)
     (pairChannel_comm "ab" "cd")⟩

/-- C6: the pair-channel identifier is symmetric in its arguments. -/
theorem claim_C6 (a b : String) : pairChannel a b = pairChannel b a :=
  pairChannel_comm a b

/-- Counterexample to C7 as stated: the explicit user-disconnected
handler is not gated on a bound identity — on a connection that never
bound one, the event still marks the named user offline and still
broadcasts, because the handler only tests its own argument. -/
theorem claim_C7_counterexample :
    (userDisconnected Option.none [⟨"u1", "ada", true, some 1, some "s1"⟩] 5 "u1").1 ≠
        [⟨"u1", "ada", true, some 1, some "s1"⟩] ∧
    (userDisconnected Option.none [⟨"u1", "ada", true, some 1, some "s1"⟩] 5 "u1").2 ≠
        [] := by
  decide

/-- C7 amended: the explicit path is gated on a non-empty event
argument, independent of the bound identity; whenever that argument
names the same non-empty user id that the implicit path finds bound,
the two handlers produce the same registry state and the same
broadcast, and the explicit path with an empty argument does nothing. -/
theorem claim_C7_amended (currentUser : Option (String × String)) (users : List UserRec)
    (now : Nat) (userId username : String) (h : userId ≠ "") :
    userDisconnected currentUser users now userId =
      onDisconnect (some (userId, username)) users now ∧
    userDisconnected currentUser users now "" = (users, []) := by
  constructor
  · unfold userDisconnected onDisconnect
    simp [h]
  · unfold userDisconnected
    simp

/-- Witness for C7 amended at a concrete user record. -/
theorem claim_C7_witness :
    ("u1" : String) ≠ "" ∧
    (userDisconnected Option.none [⟨"u1", "ada", true, some 1, some "s1"⟩] 5 "u1" =
        onDisconnect (some ("u1", "ada")) [⟨"u1", "ada", true, some 1, some "s1"⟩] 5 ∧
      userDisconnected Option.none [⟨"u1", "ada", true, some 1, some "s1"⟩] 5 "" =
        ([⟨"u1", "ada", true, some 1, some "s1"⟩], [])) :=
  ⟨by decide,
   claim_C7_amended Option.none [⟨"u1", "ada", true, some 1, some "s1"⟩] 5 "u1" "ada"
     (by decide)⟩

/-- C8: a transport disconnect on a connection that never bound an
identity mutates no user record and broadcasts nothing. -/
theorem claim_C8 (users : List UserRec) (now : Nat) :
    onDisconnect Option.none users now = (users, []) := rfl

/-- C10: the user-inactive handler stamps lastSeen on the matching
user record and changes no persisted online flag, while the broadcast
it sends reports the user offline — so the stored presence and the
broadcast presence can disagree. -/
theorem claim_C10 (users : List UserRec) (now : Nat) (userId : String) (i : Nat) :
    (userInactive users now userId).2 =
      [⟨Target.broadcastOthers, SEvent.userStatusUpdate userId false now⟩] ∧
    (userInactive users now userId).1.map UserRec.isOnline = users.map UserRec.isOnline ∧
    ((userInactive users now userId).1)[i]? = (users[i]?).map
      (fun u => if u.uid = userId then { u with lastSeen := some now } else u) := by
  refine ⟨rfl, ?_, ?_⟩
  · unfold userInactive
    simp only [List.map_map]
    apply List.map_congr_left
    intro u _
    by_cases h : u.uid = userId <;> simp [h, Function.comp]
  · simp [userInactive]

theorem goodEdges_save (s : FriendState) (rq rc : String)
    (h : GoodEdges s.edges)
    (hnone : findExistingFriendship s.edges rq rc = none) :
    GoodEdges (saveNewFriendship s rq rc).edges := by
  unfold saveNewFriendship
  split
  · exact h
  · constructor
    · intro f hf
      rcases List.mem_append.mp hf with hmem | hmem
      · exact h.1 f hmem
      · simp only [List.mem_singleton] at hmem
        subst hmem
        exact Or.inl rfl
    · rw [List.pairwise_append]
      refine ⟨h.2, List.pairwise_singleton _ _, ?_⟩
      intro f hf g hg
      simp only [List.mem_singleton] at hg
      subst hg
      unfold findExistingFriendship at hnone
      have hnot := List.find?_eq_none.mp hnone f hf
      intro hsame
      apply hnot
      rcases hsame with ⟨h1, h2⟩ | ⟨h1, h2⟩ <;>
        simp only [samePair] at h1 h2 <;> simp [h1, h2]

theorem goodEdges_sendRequest (s : FriendState) (rq rc : String) (h : GoodEdges s.edges) :
    GoodEdges (sendFriendRequest s rq rc).edges := by
  unfold sendFriendRequest
  split
  · exact h
  split
  · exact h
  split
  · exact h
  split
  · next f hfind =>
    split
    · exact h
    · next hstat =>
      exfalso
      have hf : f ∈ s.edges := by
        unfold findExistingFriendship at hfind
        exact List.mem_of_find?_eq_some hfind
      rcases h.1 f hf with hp | ha
      · exact hstat (Or.inr hp)
      · exact hstat (Or.inl ha)
  · next hfind =>
    exact goodEdges_save s rq rc h hfind

theorem acceptUpdate_requester (friendshipId : Nat) (currentUserId : String)
    (f : Friendship) :
    (if f.fid = friendshipId ∧ f.recipient = currentUserId ∧ f.status = FStatus.pending
      then { f with status := FStatus.accepted } else f).requester = f.requester := by
  split <;> rfl

theorem acceptUpdate_recipient (friendshipId : Nat) (currentUserId : String)
    (f : Friendship) :
    (if f.fid = friendshipId ∧ f.recipient = currentUserId ∧ f.status = FStatus.pending
      then { f with status := FStatus.accepted } else f).recipient = f.recipient := by
  split <;> rfl

theorem goodEdges_accept (s : FriendState) (friendshipId : Nat) (currentUserId : String)
    (h : GoodEdges s.edges) :
    GoodEdges (acceptFriendRequest s friendshipId currentUserId).edges := by
  unfold acceptFriendRequest
  split
  · exact h
  · constructor
    · intro f hf
      rcases List.mem_map.mp hf with ⟨g, hg, hfg⟩
      subst hfg
      split
      · exact Or.inr rfl
      · exact h.1 g hg
    · rw [List.pairwise_map]
      apply h.2.imp
      intro f g hfg hsame
      apply hfg
      rcases hsame with ⟨h1, h2⟩ | ⟨h1, h2⟩
      · rw [acceptUpdate_requester, acceptUpdate_requester] at h1
        rw [acceptUpdate_recipient, acceptUpdate_recipient] at h2
        exact Or.inl ⟨h1, h2⟩
      · rw [acceptUpdate_requester, acceptUpdate_recipient] at h1
        rw [acceptUpdate_recipient, acceptUpdate_requester] at h2
        exact Or.inr ⟨h1, h2⟩

theorem goodEdges_filter (edges : List Friendship) (p : Friendship → Bool)
    (h : GoodEdges edges) : GoodEdges (edges.filter p) := by
  constructor
  · intro f hf
    exact h.1 f (List.mem_of_mem_filter hf)
  · exact List.Pairwise.sublist (List.filter_sublist edges) h.2

theorem goodEdges_decline (s : FriendState) (friendshipId : Nat) (currentUserId : String)
    (h : GoodEdges s.edges) :
    GoodEdges (declineFriendRequest s friendshipId currentUserId).edges := by
  unfold declineFriendRequest
  split
  · exact h
  · exact goodEdges_filter s.edges _ h

theorem goodEdges_remove (s : FriendState) (friendId currentUserId : String)
    (h : GoodEdges s.edges) :
    GoodEdges (removeFriend s friendId currentUserId).edges := by
  unfold removeFriend
  split
  · exact h
  split
  · exact h
  · exact goodEdges_filter s.edges _ h

theorem goodEdges_reachable (s : FriendState) (h : Reachable s) : GoodEdges s.edges := by
  induction h with
  | init users => exact ⟨by simp, List.Pairwise.nil⟩
  | send rq rc _ ih => exact goodEdges_sendRequest _ rq rc ih
  | accept friendshipId cu _ ih => exact goodEdges_accept _ friendshipId cu ih
  | decline friendshipId cu _ ih => exact goodEdges_decline _ friendshipId cu ih
  | remove fr cu _ ih => exact goodEdges_remove _ fr cu ih

/-- Counterexample to C9 as stated: the pair is not normalized to a
canonical order before insert — the request route stores the edge in
the orientation of the call, so the same unordered pair is stored as
(b, a) or as (a, b) depending on who asked, and the unique compound
index is on that ordered pair. -/
theorem claim_C9_counterexample :
    (sendFriendRequest ⟨["a", "b"], [], 0⟩ "b" "a").edges =
        [⟨0, "b", "a", FStatus.pending⟩] ∧
    (sendFriendRequest ⟨["a", "b"], [], 0⟩ "a" "b").edges =
        [⟨0, "a", "b", FStatus.pending⟩] ∧
    samePair ⟨0, "b", "a", FStatus.pending⟩ ⟨0, "a", "b", FStatus.pending⟩ ∧
    (⟨0, "b", "a", FStatus.pending⟩ : Friendship).requester ≠
      (⟨0, "a", "b", FStatus.pending⟩ : Friendship).requester := by
  decide

/-- C9 amended: every store reachable through the four friendship
routes holds at most one edge per unordered pair — enforced by the
request route checking both orientations before the insert, not by
normalizing the pair order. -/
theorem claim_C9_amended (s : FriendState) (h : Reachable s) :
    s.edges.Pairwise fun f g => ¬ samePair f g :=
  (goodEdges_reachable s h).2

/-- Witness for C9 amended: the store reached by one request and its
acceptance satisfies the pairwise uniqueness of unordered pairs. -/
theorem claim_C9_witness :
    (acceptFriendRequest (sendFriendRequest ⟨["a", "b"], [], 0⟩ "a" "b")
        0 "b").edges.Pairwise fun f g => ¬ samePair f g :=
  claim_C9_amended _
    (Reachable.accept 0 "b" (Reachable.send "a" "b" (Reachable.init ["a", "b"])))

end Domz
